import Mathlib

/-!
Shallow embedding of the data pipeline of `women_violence_streamlit.py`:
the cleaning step `clean_data`, the filter mask built on "Apply Filters",
and the per-chart aggregations.  A dataset is a `List RawRecord`; pandas
missing values (`NaN`/`NaT`) are `Option.none`; numeric `Value` cells are
rationals.
-/

/-- A calendar date, the result of a successful `pd.to_datetime` parse. -/
structure Date where
  year : Int
  month : Nat
  day : Nat
deriving DecidableEq, Repr

/-- One cell of the `Survey Year` column.  In the raw CSV it is text (or
missing); after `pd.to_datetime(..., errors='coerce')` it is a date, with
unparseable text coerced to missing (`NaT`). -/
inductive YearCell where
  | missing : YearCell
  | text : String → YearCell
  | date : Date → YearCell
deriving DecidableEq, Repr

/-- One row of the dataset, with the columns the script touches:
`Country, Gender, Survey Year, Demographics Question, Demographics
Response, Question, Value`.  `Value` may be missing in raw input, and the
`Question` text may be missing (the script calls `.dropna()` on it). -/
structure RawRecord where
  country : String
  gender : String
  surveyYear : YearCell
  demographicsQuestion : String
  demographicsResponse : String
  question : Option String
  value : Option Rat
deriving DecidableEq, Repr

instance : Inhabited RawRecord :=
  ⟨{ country := "", gender := "", surveyYear := YearCell.missing,
     demographicsQuestion := "", demographicsResponse := "",
     question := none, value := none }⟩

/-- All-digit character runs parse to a number, anything else to `none`. -/
def digitsToNat (cs : List Char) : Option Nat :=
  if cs ≠ [] ∧ cs.all Char.isDigit then
    some (cs.foldl (fun n c => 10 * n + (c.toNat - 48)) 0)
  else none

/-- Split a character list into the runs between the dashes. -/
def splitDash : List Char → List (List Char)
  | [] => [[]]
  | c :: cs =>
      if c = '-' then [] :: splitDash cs
      else match splitDash cs with
           | [] => [[c]]
           | f :: fs => (c :: f) :: fs

/-- Models the string parsing done by `pd.to_datetime(..., errors='coerce')`
for the ISO forms `YYYY` and `YYYY-MM-DD`; any other string coerces to
missing (`NaT`). -/
def parseDate (s : String) : Option Date :=
  match (splitDash s.data).map digitsToNat with
  | [some y] => some ⟨(y : Int), 1, 1⟩
  | [some y, some m, some d] =>
      if 1 ≤ m ∧ m ≤ 12 ∧ 1 ≤ d ∧ d ≤ 31 then some ⟨(y : Int), m, d⟩ else none
  | _ => none

/-- `pd.to_datetime(cell, errors='coerce')` on a single cell: a date stays
itself, text is parsed, missing stays missing. -/
def parseCell : YearCell → Option Date
  | YearCell.missing => none
  | YearCell.text s => parseDate s
  | YearCell.date d => some d

/-- The year component `.dt.year` of a `Survey Year` cell (`none` for
`NaT`, where every numeric comparison is false). -/
def cellYear : YearCell → Option Int
  | YearCell.date d => some d.year
  | _ => none

/-- The median of a list of rationals, as `pandas.Series.median` computes
it over the non-missing entries: middle element of the sorted list when
the length is odd, mean of the two middle elements when even, `NaN`
(`none`) when the list is empty. -/
def medianOpt (xs : List Rat) : Option Rat :=
  let s := List.insertionSort (· ≤ ·) xs
  if s.length = 0 then none
  else if s.length % 2 = 1 then some (s.getD (s.length / 2) 0)
  else some ((s.getD (s.length / 2 - 1) 0 + s.getD (s.length / 2) 0) / 2)

/-- `df_clean['Value'].median()`: the median of the non-missing `Value`
entries, computed before any imputation. -/
def preMedian (df : List RawRecord) : Option Rat :=
  medianOpt (df.filterMap (·.value))

/-- One row of `df_clean['Value'].fillna(median_value)`: a missing `Value`
becomes the median (itself possibly `NaN`); a present `Value` is kept. -/
def fillValue (med : Option Rat) (r : RawRecord) : RawRecord :=
  { r with value := match r.value with
                    | some v => some v
                    | none => med }

/-- One row of `pd.to_datetime(df_clean['Survey Year'], errors='coerce')`:
the `Survey Year` cell is re-typed to a date, or to missing (`NaT`) when
parsing fails. -/
def convertYear (r : RawRecord) : RawRecord :=
  { r with surveyYear := match parseCell r.surveyYear with
                         | some d => YearCell.date d
                         | none => YearCell.missing }

/-- The predicate of `dropna(subset=['Value', 'Survey Year'])`: keep a row
iff its `Value` is present and its `Survey Year` is a valid date. -/
def keepRow (r : RawRecord) : Bool :=
  r.value.isSome && (match r.surveyYear with
                     | YearCell.date _ => true
                     | _ => false)

/-- `clean_data`: fill missing `Value` with the median, convert
`Survey Year` to datetime with coercion, then drop rows missing either
critical field. -/
def clean_data (df : List RawRecord) : List RawRecord :=
  ((df.map (fillValue (preMedian df))).map convertYear).filter keepRow

/-- The sidebar filter parameters: an inclusive year range and the three
multi-select sets. -/
structure FilterParams where
  yearMin : Int
  yearMax : Int
  countries : List String
  genders : List String
  demographicsQuestions : List String
deriving DecidableEq, Repr

/-- The boolean mask of the "Apply Filters" branch, for one row:
`(year >= year_range[0]) & (year <= year_range[1]) &
Country.isin(...) & Gender.isin(...) & 'Demographics Question'.isin(...)`.
A `NaT` year compares false. -/
def rowPasses (p : FilterParams) (r : RawRecord) : Bool :=
  (match cellYear r.surveyYear with
   | some y => decide (p.yearMin ≤ y) && decide (y ≤ p.yearMax)
   | none => false)
  && decide (r.country ∈ p.countries)
  && decide (r.gender ∈ p.genders)
  && decide (r.demographicsQuestion ∈ p.demographicsQuestions)

/-- `filtered = df_clean[mask]`: the rows of the cleaned dataset passing
all four predicates, in order. -/
def filterData (df : List RawRecord) (p : FilterParams) : List RawRecord :=
  df.filter (rowPasses p)

/-- The `Gender` column of a dataset. -/
def genderColumn (df : List RawRecord) : List String :=
  df.map (·.gender)

/-- `df_filtered['Gender'].value_counts()`: one `(gender, count)` pair per
distinct gender, sorted by count descending. -/
def gender_counts (df : List RawRecord) : List (String × Nat) :=
  List.insertionSort (fun a b => b.2 ≤ a.2)
    ((genderColumn df).dedup.map (fun g => (g, (genderColumn df).count g)))

/-- `" ".join(str(q) for q in df_filtered['Question'].dropna())`. -/
def questionText (df : List RawRecord) : String :=
  String.intercalate " " (df.filterMap (·.question))

/-- `df.groupby(key)['Value'].mean()` for a (possibly missing-valued) key:
the distinct non-missing keys sorted ascending, each with the mean of the
non-missing `Value` entries of its group (`none` = `NaN` mean). -/
def groupMeanBy {κ : Type} [DecidableEq κ] (lt : κ → κ → Prop)
    [DecidableRel lt] (key : RawRecord → Option κ) (df : List RawRecord) :
    List (κ × Option Rat) :=
  (List.insertionSort lt (df.filterMap key).dedup).map
    (fun k =>
      (k, match (df.filter (fun r => key r == some k)).filterMap (·.value) with
          | [] => none
          | v :: vs => some (((v :: vs).sum) / ((v :: vs).length : Rat))))

/-- `df.groupby(key).size()`: the distinct non-missing keys sorted
ascending, each with its row count. -/
def groupCountBy {κ : Type} [DecidableEq κ] (lt : κ → κ → Prop)
    [DecidableRel lt] (key : RawRecord → Option κ) (df : List RawRecord) :
    List (κ × Nat) :=
  (List.insertionSort lt (df.filterMap key).dedup).map
    (fun k => (k, df.countP (fun r => key r == some k)))

/-- Lexicographic order on pairs of strings, the order pandas sorts a
two-level group key in. -/
def pairLe (a b : String × String) : Prop :=
  a.1 < b.1 ∨ (a.1 = b.1 ∧ a.2 ≤ b.2)

instance : DecidableRel pairLe := fun a b =>
  inferInstanceAs (Decidable (a.1 < b.1 ∨ (a.1 = b.1 ∧ a.2 ≤ b.2)))

/-- `df_filtered.groupby('Question')['Value'].mean()`. -/
def df_question_avg (df : List RawRecord) : List (String × Option Rat) :=
  groupMeanBy (· ≤ ·) (·.question) df

/-- `df_filtered.groupby(df_filtered['Survey Year'].dt.year)['Value'].mean()`. -/
def df_yearly_avg (df : List RawRecord) : List (Int × Option Rat) :=
  groupMeanBy (· ≤ ·) (fun r => cellYear r.surveyYear) df

/-- `df_filtered.groupby(['Demographics Question', 'Demographics Response'])['Value'].mean()`. -/
def df_sunburst_data (df : List RawRecord) : List ((String × String) × Option Rat) :=
  groupMeanBy pairLe (fun r => some (r.demographicsQuestion, r.demographicsResponse)) df

/-- `df_filtered.groupby(['Demographics Question', 'Question'])['Value'].mean()`. -/
def df_heatmap_data (df : List RawRecord) : List ((String × String) × Option Rat) :=
  groupMeanBy pairLe (fun r => r.question.map (fun q => (r.demographicsQuestion, q))) df

/-- `df_heatmap_data.pivot(index='Demographics Question', columns='Question',
values='Value')`: a matrix indexed by the distinct first components (rows)
and second components (columns); absent combinations are empty cells. -/
def heatmap_pivot (rows : List ((String × String) × Option Rat)) :
    List (String × List (String × Option Rat)) :=
  let idx := List.insertionSort (· ≤ ·) (rows.map (fun x => x.1.1)).dedup
  let cols := List.insertionSort (· ≤ ·) (rows.map (fun x => x.1.2)).dedup
  idx.map (fun i => (i, cols.map (fun c => (c, (List.lookup (i, c) rows).join))))

/-- `df_filtered.groupby(['Demographics Question', 'Gender'])['Value'].mean()`. -/
def df_grouped_gender (df : List RawRecord) : List ((String × String) × Option Rat) :=
  groupMeanBy pairLe (fun r => some (r.demographicsQuestion, r.gender)) df

/-- `df_filtered.groupby(['Demographics Question', 'Demographics Response']).size()`. -/
def df_stacked_bar_data (df : List RawRecord) : List ((String × String) × Nat) :=
  groupCountBy pairLe (fun r => some (r.demographicsQuestion, r.demographicsResponse)) df

/-- Build a record from its seven cells. -/
def mk (c g : String) (y : YearCell) (dq dr : String) (q : Option String)
    (v : Option Rat) : RawRecord :=
  ⟨c, g, y, dq, dr, q, v⟩

/-- The raw dataset of the spec's median example: `Value = [10, missing, 30]`. -/
def exMedianRaw : List RawRecord :=
  [ mk "A" "F" (YearCell.text "2010") "Age" "15-24" (some "q1") (some 10),
    mk "A" "M" (YearCell.text "2011") "Age" "25-34" (some "q2") none,
    mk "B" "F" (YearCell.text "2012") "Edu" "Higher" (some "q3") (some 30) ]

/-- A small raw dataset with no missing cells and parseable years. -/
def exNoMissing : List RawRecord :=
  [ mk "A" "F" (YearCell.text "2010") "Age" "15-24" (some "q1") (some 10),
    mk "B" "M" (YearCell.text "2012") "Edu" "Higher" (some "q3") (some 30) ]

/-- The first row of `clean_data exNoMissing`. -/
def rCleaned : RawRecord :=
  mk "A" "F" (YearCell.date ⟨2010, 1, 1⟩) "Age" "15-24" (some "q1") (some 10)

/-- A row whose `Survey Year` fails to parse. -/
def rBadDate : RawRecord :=
  mk "C" "F" (YearCell.text "not-a-date") "Age" "15-24" (some "q9") (some 5)

/-- A raw dataset whose `Value` column is entirely missing. -/
def exAllMissing : List RawRecord :=
  [ mk "A" "F" (YearCell.text "2010") "Age" "15-24" (some "q1") none,
    mk "B" "M" (YearCell.text "2012") "Edu" "Higher" (some "q3") none ]

/-- Filter parameters with an empty country selection. -/
def pEmptyCountries : FilterParams :=
  ⟨2000, 2020, [], ["F", "M"], ["Age", "Edu"]⟩

/-- A dataset satisfying the cleaned invariants: no missing `Value`, every
`Survey Year` a valid parsed date. -/
abbrev CleanedInvariants (df : List RawRecord) : Prop :=
  ∀ r ∈ df, r.value ≠ none ∧ parseCell r.surveyYear ≠ none

theorem mem_clean_data {df : List RawRecord} {r : RawRecord}
    (h : r ∈ clean_data df) :
    r.value.isSome = true ∧ ∃ d, r.surveyYear = YearCell.date d := by
  unfold clean_data at h
  rw [List.mem_filter] at h
  have hk := h.2
  unfold keepRow at hk
  rw [Bool.and_eq_true] at hk
  refine ⟨hk.1, ?_⟩
  have hk2 := hk.2
  cases hy : r.surveyYear with
  | date d => exact ⟨d, rfl⟩
  | missing => rw [hy] at hk2; simp at hk2
  | text s => rw [hy] at hk2; simp at hk2

theorem fillValue_eq_self (m : Option Rat) (r : RawRecord)
    (h : r.value.isSome = true) : fillValue m r = r := by
  obtain ⟨c, g, y, dq, dr, q, v⟩ := r
  cases v with
  | none => simp at h
  | some v0 => rfl

theorem convertYear_eq_self (r : RawRecord) (d : Date)
    (h : r.surveyYear = YearCell.date d) : convertYear r = r := by
  obtain ⟨c, g, y, dq, dr, q, v⟩ := r
  simp only at h
  subst h
  rfl

theorem keepRow_of_invariants (r : RawRecord) (h1 : r.value.isSome = true)
    (h2 : ∃ d, r.surveyYear = YearCell.date d) : keepRow r = true := by
  obtain ⟨d, hd⟩ := h2
  unfold keepRow
  rw [hd, h1]
  rfl

theorem clean_data_of_invariants (df : List RawRecord)
    (h : ∀ r ∈ df, r.value.isSome = true ∧ ∃ d, r.surveyYear = YearCell.date d) :
    clean_data df = df := by
  unfold clean_data
  rw [show df.map (fillValue (preMedian df)) = df.map id from
        List.map_congr_left fun r hr => fillValue_eq_self _ r (h r hr).1,
      List.map_id]
  rw [show df.map convertYear = df.map id from
        List.map_congr_left fun r hr => by
          obtain ⟨d, hd⟩ := (h r hr).2
          exact convertYear_eq_self r d hd,
      List.map_id]
  exact List.filter_eq_self.mpr fun r hr => keepRow_of_invariants r (h r hr).1 (h r hr).2

/-- C1: a row of the cleaned dataset is retained by the filter iff all
four predicates hold — its `Survey Year`'s year component lies within the
inclusive bounds, its `Country`, `Gender` and `Demographics Question` are
in the respective selection sets — and if any selection set is empty, zero
rows are retained. -/
theorem filter_retains_iff_all_four (raw : List RawRecord) (p : FilterParams) :
    (∀ r : RawRecord,
      r ∈ filterData (clean_data raw) p ↔
        r ∈ clean_data raw ∧
        (∃ y, cellYear r.surveyYear = some y ∧ p.yearMin ≤ y ∧ y ≤ p.yearMax) ∧
        r.country ∈ p.countries ∧ r.gender ∈ p.genders ∧
        r.demographicsQuestion ∈ p.demographicsQuestions) ∧
    (p.countries = [] ∨ p.genders = [] ∨ p.demographicsQuestions = [] →
      filterData (clean_data raw) p = []) := by
  constructor
  · intro r
    unfold filterData
    rw [List.mem_filter]
    unfold rowPasses
    cases hy : cellYear r.surveyYear with
    | none => simp [hy]
    | some y =>
        simp only [hy, Bool.and_eq_true, decide_eq_true_iff, Option.some.injEq]
        constructor
        · intro h
          obtain ⟨hm, hrest⟩ := h
          exact ⟨hm, ⟨y, rfl, by tauto, by tauto⟩, by tauto, by tauto, by tauto⟩
        · intro h
          obtain ⟨hm, ⟨y', hy', hy1, hy2⟩, hc, hg, hd⟩ := h
          cases hy'
          exact ⟨hm, by tauto⟩
  · intro h
    unfold filterData
    apply List.filter_eq_nil_iff.mpr
    intro r hr
    rcases h with h | h | h <;> simp [rowPasses, h]

/-- C1 witness: with an empty country selection every other predicate
passing, the filter retains zero rows. -/
theorem filter_retains_iff_all_four_witness :
    filterData (clean_data exNoMissing) pEmptyCountries = [] :=
  (filter_retains_iff_all_four exNoMissing pEmptyCountries).2 (Or.inl rfl)

/-- C2: the clean operation's imputation stage replaces exactly the
missing `Value` entries by the median of the non-missing `Value` entries
computed before imputation, keeping present entries; on the spec's example
raw dataset with `Value = [10, missing, 30]`, cleaning yields
`Value = [10, 20, 30]`. -/
theorem clean_fills_missing_with_premedian :
    (∀ (df : List RawRecord) (i : Nat),
        ((df.map (fillValue (preMedian df)))[i]?).map (·.value)
          = (df[i]?).map (fun r =>
              match r.value with
              | some v => some v
              | none => preMedian df)) ∧
    (clean_data exMedianRaw).map (·.value) = [some 10, some 20, some 30] := by
  constructor
  · intro df i
    rw [List.getElem?_map]
    cases h : df[i]? with
    | none => rfl
    | some r => rfl
  · norm_num [clean_data, preMedian, medianOpt, fillValue, convertYear, keepRow,
      parseCell, parseDate, exMedianRaw, mk, List.insertionSort, List.orderedInsert]
    decide

/-- C3: every row of the cleaned dataset has a valid parsed `Survey Year`
and a non-missing `Value`, and any raw row whose `Survey Year` fails to
parse is absent from the cleaned dataset (its cleaned image is dropped)
regardless of its other fields. -/
theorem clean_excludes_unparseable_years (raw : List RawRecord) :
    (∀ r ∈ clean_data raw,
        r.value.isSome = true ∧ ∃ d, r.surveyYear = YearCell.date d) ∧
    (∀ r : RawRecord, parseCell r.surveyYear = none →
        convertYear (fillValue (preMedian raw) r) ∉ clean_data raw) := by
  refine ⟨fun r hr => mem_clean_data hr, fun r hp hmem => ?_⟩
  obtain ⟨-, d, hd⟩ := mem_clean_data hmem
  have hmiss : (convertYear (fillValue (preMedian raw) r)).surveyYear
      = YearCell.missing := by
    show (match parseCell r.surveyYear with
          | some d => YearCell.date d
          | none => YearCell.missing) = YearCell.missing
    rw [hp]
  rw [hmiss] at hd
  simp at hd

/-- C3 witness: the row with `Survey Year = "not-a-date"` is absent from
the cleaned dataset. -/
theorem clean_excludes_unparseable_years_witness :
    convertYear (fillValue (preMedian exNoMissing) rBadDate) ∉ clean_data exNoMissing :=
  (clean_excludes_unparseable_years exNoMissing).2 rBadDate (by decide)

/-- C4: every per-chart aggregation — the gender value counts, the
question-text concatenation, the groupby means, the pivot, and the groupby
sizes — returns an empty result on an empty filtered dataset. -/
theorem aggregations_empty_on_empty :
    gender_counts [] = [] ∧ questionText [] = "" ∧ df_question_avg [] = [] ∧
    df_yearly_avg [] = [] ∧ df_sunburst_data [] = [] ∧ df_heatmap_data [] = [] ∧
    heatmap_pivot (df_heatmap_data []) = [] ∧ df_grouped_gender [] = [] ∧
    df_stacked_bar_data [] = [] :=
  ⟨rfl, rfl, rfl, rfl, rfl, rfl, rfl, rfl, rfl⟩

/-- C5: the per-group counts of the count-grouped-by-`Gender` aggregation
sum to the total number of rows of the dataset. -/
theorem gender_counts_sum_eq_length (df : List RawRecord) :
    ((gender_counts df).map (·.2)).sum = df.length := by
  unfold gender_counts
  rw [List.Perm.sum_eq (List.Perm.map _ (List.perm_insertionSort _ _))]
  rw [List.map_map]
  rw [show ((fun p : String × Nat => p.2) ∘ fun g => (g, (genderColumn df).count g))
        = fun g => (genderColumn df).count g from rfl]
  rw [List.sum_map_count_dedup_eq_length]
  exact List.length_map df _

/-- C6: the group-by-year mean-of-`Value` aggregation lists its year keys
in ascending order with no duplicate year. -/
theorem df_yearly_avg_sorted_nodup (df : List RawRecord) :
    List.Sorted (· ≤ ·) ((df_yearly_avg df).map (·.1)) ∧
    ((df_yearly_avg df).map (·.1)).Nodup := by
  have hkeys : (df_yearly_avg df).map (·.1)
      = List.insertionSort (· ≤ ·)
          ((df.filterMap (fun r => cellYear r.surveyYear)).dedup) := by
    unfold df_yearly_avg groupMeanBy
    rw [List.map_map]
    exact List.map_id _
  constructor
  · rw [hkeys]
    exact List.sorted_insertionSort _ _
  · rw [hkeys]
    exact (List.Perm.nodup_iff (List.perm_insertionSort _ _)).mpr
      (List.nodup_dedup _)

/-- C7: cleaning is idempotent — on a raw dataset already satisfying the
cleaned invariants (no missing `Value`, all `Survey Year` cells valid
parseable dates), `clean_data (clean_data raw) = clean_data raw`. -/
theorem clean_data_idempotent (raw : List RawRecord)
    (_h : CleanedInvariants raw) :
    clean_data (clean_data raw) = clean_data raw :=
  clean_data_of_invariants _ fun _ hr => mem_clean_data hr

/-- C7 witness: idempotence at a concrete dataset satisfying the cleaned
invariants. -/
theorem clean_data_idempotent_witness :
    clean_data (clean_data exNoMissing) = clean_data exNoMissing :=
  clean_data_idempotent exNoMissing (by decide)

/-- C8: when the `Value` column is entirely missing the median is
undefined (`NaN`), the fill leaves every `Value` missing, and the final
row-dropping pass removes every row, so cleaning returns the empty
dataset. -/
theorem clean_all_values_missing (raw : List RawRecord)
    (h : ∀ r ∈ raw, r.value = none) : clean_data raw = [] := by
  have hm : preMedian raw = none := by
    unfold preMedian
    rw [List.filterMap_eq_nil_iff.mpr fun r hr => h r hr]
    rfl
  unfold clean_data
  apply List.filter_eq_nil_iff.mpr
  intro r hr
  rw [List.mem_map] at hr
  obtain ⟨r1, hr1, rfl⟩ := hr
  rw [List.mem_map] at hr1
  obtain ⟨r0, hr0, rfl⟩ := hr1
  have hv : (fillValue (preMedian raw) r0).value = none := by
    show (match r0.value with | some v => some v | none => preMedian raw) = none
    rw [h r0 hr0, hm]
  have hv2 : (convertYear (fillValue (preMedian raw) r0)).value = none := hv
  simp [keepRow, hv2]

/-- C8 witness: a concrete raw dataset whose `Value` column is entirely
missing cleans to the empty dataset. -/
theorem clean_all_values_missing_witness : clean_data exAllMissing = [] :=
  clean_all_values_missing exAllMissing (by decide)

/-- C9: the filtered dataset is a subsequence of the cleaned dataset —
retained rows are unmodified, not duplicated, and keep their relative
order. -/
theorem filterData_sublist (raw : List RawRecord) (p : FilterParams) :
    List.Sublist (filterData (clean_data raw) p) (clean_data raw) :=
  List.filter_sublist (clean_data raw)

/-- C10: every row surviving cleaning comes from a raw row with identical
`Country`, `Gender`, `Demographics Question`, `Demographics Response` and
`Question`; only `Value` is imputed and `Survey Year` re-typed. -/
theorem clean_preserves_other_fields (raw : List RawRecord) (r : RawRecord)
    (h : r ∈ clean_data raw) :
    ∃ r0 ∈ raw, r.country = r0.country ∧ r.gender = r0.gender ∧
      r.demographicsQuestion = r0.demographicsQuestion ∧
      r.demographicsResponse = r0.demographicsResponse ∧
      r.question = r0.question ∧
      r.value = (match r0.value with
                 | some v => some v
                 | none => preMedian raw) ∧
      ∃ d, parseCell r0.surveyYear = some d ∧ r.surveyYear = YearCell.date d := by
  unfold clean_data at h
  rw [List.mem_filter] at h
  obtain ⟨hmem, hkeep⟩ := h
  rw [List.mem_map] at hmem
  obtain ⟨r1, hr1, rfl⟩ := hmem
  rw [List.mem_map] at hr1
  obtain ⟨r0, hr0, rfl⟩ := hr1
  refine ⟨r0, hr0, rfl, rfl, rfl, rfl, rfl, rfl, ?_⟩
  cases hp : parseCell r0.surveyYear with
  | some d =>
      refine ⟨d, rfl, ?_⟩
      show (match parseCell r0.surveyYear with
            | some d => YearCell.date d
            | none => YearCell.missing) = YearCell.date d
      rw [hp]
  | none =>
      exfalso
      have hmiss : (convertYear (fillValue (preMedian raw) r0)).surveyYear
          = YearCell.missing := by
        show (match parseCell r0.surveyYear with
              | some d => YearCell.date d
              | none => YearCell.missing) = YearCell.missing
        rw [hp]
      unfold keepRow at hkeep
      rw [hmiss] at hkeep
      simp at hkeep

/-- C10 witness: the first cleaned row of a concrete dataset corresponds
to a raw row agreeing on all fields other than `Value` and `Survey Year`. -/
theorem clean_preserves_other_fields_witness :
    ∃ r0 ∈ exNoMissing, rCleaned.country = r0.country ∧
      rCleaned.gender = r0.gender ∧
      rCleaned.demographicsQuestion = r0.demographicsQuestion ∧
      rCleaned.demographicsResponse = r0.demographicsResponse ∧
      rCleaned.question = r0.question ∧
      rCleaned.value = (match r0.value with
                        | some v => some v
                        | none => preMedian exNoMissing) ∧
      ∃ d, parseCell r0.surveyYear = some d ∧
        rCleaned.surveyYear = YearCell.date d :=
  clean_preserves_other_fields exNoMissing rCleaned (by decide)
